import Mathlib

set_option linter.unusedVariables false

/-!
Verification development for the `aws-s3-generator` CLI tool.

The tool (src/index.ts, src/utils.ts, src/types.ts) collects bucket/user
choices through interactive prompts, provisions AWS resources through
one-shot SDK calls, and writes the resulting credentials to a local
`.env.<bucketName>` file.

The embedding below models:
  - parsed JSON values (`Json`) and the zod `policySchema` from
    src/types.ts as a boolean acceptance function;
  - the inquirer `validate` callbacks of `userBucketPrompt` and
    `customPolicyNamePrompt` from src/utils.ts (the regular expressions
    of the source are compiled by hand into character-class checks);
  - the provisioning wrappers of src/utils.ts as functions returning the
    sequence of AWS control-plane calls they perform;
  - the orchestration of src/index.ts (`mainFlow`) as the sequence of
    file-system and AWS effects it performs, parameterised by the
    operator's prompt answers, the edited policy document and the
    environment.  Console output and the interactive prompting itself
    are elided from the effect trace; serialization of policy documents
    (`JSON.stringify`) is abstracted: file and API payloads carry the
    structured `Json` value.
-/

/-- Parsed JSON values, as produced by `JSON.parse`.  Numbers never matter
for any of the validated fields, so they are carried as integers. -/
inductive Json where
  | null : Json
  | bool (b : Bool) : Json
  | num (n : Int) : Json
  | str (s : String) : Json
  | arr (elems : List Json) : Json
  | obj (fields : List (String × Json)) : Json

/-- Field lookup in a parsed JSON object.  `JSON.parse` keeps the last
occurrence of a duplicated key, so the lookup prefers later entries. -/
def jlookup (fields : List (String × Json)) (key : String) : Option Json :=
  match fields with
  | [] => none
  | (k, v) :: rest =>
    match jlookup rest key with
    | some r => some r
    | none => if k == key then some v else none

/-- Does a JSON value satisfy `z.string()`? -/
def isStr : Json → Bool
  | .str _ => true
  | _ => false

/-- Does a JSON value satisfy `z.array(z.string()).min(1)` (as used for the
`Action` and `Resource` fields of `policySchema` in src/types.ts)? -/
def nonEmptyStringArray : Json → Bool
  | .arr xs => !xs.isEmpty && xs.all isStr
  | _ => false

/-- A required zod object field: the key must be present and its value
must pass the field's check. -/
def requiredField (check : Json → Bool) : Option Json → Bool
  | some j => check j
  | none => false

/-- The `z.literal` check for the `Version` field of `policySchema`. -/
def versionLiteralOk : Json → Bool
  | .str v => v == "2012-10-17"
  | _ => false

/-- Acceptance of one `Statement` element by `policySchema` (src/types.ts
lines 26-34): an object with a string `Effect`, a non-empty string array
`Action` and a non-empty string array `Resource`.  zod objects ignore
unknown keys in their default mode. -/
def statementAccepts : Json → Bool
  | .obj fields =>
    requiredField isStr (jlookup fields "Effect")
    && requiredField nonEmptyStringArray (jlookup fields "Action")
    && requiredField nonEmptyStringArray (jlookup fields "Resource")
  | _ => false

/-- The `z.array(z.object(...))` check for the `Statement` field of
`policySchema`: an array each of whose elements is an accepted statement.
The source puts no `.min(1)` on this array. -/
def statementsArrayOk : Json → Bool
  | .arr stmts => stmts.all statementAccepts
  | _ => false

/-- Acceptance by `policySchema.parse` (src/types.ts lines 23-36):
`Version` must be the literal string "2012-10-17" and `Statement` must be
an array whose every element satisfies `statementAccepts`.  zod's default
object mode ignores unknown keys. -/
def policySchemaAccepts : Json → Bool
  | .obj fields =>
    requiredField versionLiteralOk (jlookup fields "Version")
    && requiredField statementsArrayOk (jlookup fields "Statement")
  | _ => false

/-- Specification-side reading of a well-formed statement: an object whose
`Effect` is some string and whose `Action` and `Resource` are non-empty
arrays of strings. -/
def StatementWellFormed (j : Json) : Prop :=
  ∃ fields, j = Json.obj fields ∧
    (∃ e, jlookup fields "Effect" = some (Json.str e)) ∧
    (∃ xs, jlookup fields "Action" = some (Json.arr xs) ∧ xs ≠ [] ∧
      ∀ x ∈ xs, ∃ s, x = Json.str s) ∧
    (∃ xs, jlookup fields "Resource" = some (Json.arr xs) ∧ xs ≠ [] ∧
      ∀ x ∈ xs, ∃ s, x = Json.str s)

/-- Specification-side reading of an accepted policy document: an object
whose `Version` field is the literal string "2012-10-17" and whose
`Statement` field is an array (possibly empty) of well-formed statements;
any additional keys are ignored. -/
def PolicyDocAccepted (j : Json) : Prop :=
  ∃ fields, j = Json.obj fields ∧
    jlookup fields "Version" = some (Json.str "2012-10-17") ∧
    ∃ stmts, jlookup fields "Statement" = some (Json.arr stmts) ∧
      ∀ s ∈ stmts, StatementWellFormed s

/-- The outcome of an inquirer `validate` callback: `true`, or an error
message shown to the operator.  Acceptance of an input means the callback
returned `ok`. -/
inductive VResult where
  | ok : VResult
  | err (msg : String) : VResult
deriving DecidableEq

/-- Membership in the character class `[a-z0-9.-]` of the bucket-name
regular expression in src/utils.ts line 204. -/
def isBucketNameChar (c : Char) : Bool :=
  ('a' ≤ c && c ≤ 'z') || ('0' ≤ c && c ≤ '9') || c == '.' || c == '-'

/-- Hand-compiled match of the anchored regular expression
`^[a-z0-9.-]+$` (src/utils.ts line 204): at least one character, every
character in the class. -/
def matchesBucketNameRe (s : String) : Bool :=
  !s.isEmpty && s.data.all isBucketNameChar

/-- The bucket-name `validate` callback of `userBucketPrompt`
(src/utils.ts lines 194-208).  A JavaScript string is falsy exactly when
it is empty, which models the leading `if (!input)` guard. -/
def bucketNameValidate (input : String) : VResult :=
  if input = "" then .err "Please enter a bucket name"
  else if input.length < 3 then .err "Bucket name must be at least 3 characters long"
  else if input.length > 63 then .err "Bucket name must be less than 63 characters long"
  else if !matchesBucketNameRe input then
    .err "Bucket name must be lowercase and contain only letters, numbers, periods, and hyphens"
  else .ok

/-- Membership in the character class `[a-zA-Z0-9+=,.@_-]` of the
username and policy-name regular expressions (src/utils.ts lines 224 and
284). -/
def isUserNameChar (c : Char) : Bool :=
  ('a' ≤ c && c ≤ 'z') || ('A' ≤ c && c ≤ 'Z') || ('0' ≤ c && c ≤ '9') ||
  c == '+' || c == '=' || c == ',' || c == '.' || c == '@' || c == '_' || c == '-'

/-- Hand-compiled match of the anchored regular expression
`^[a-zA-Z0-9+=,.@_-]+$` (src/utils.ts lines 224 and 284). -/
def matchesUserNameRe (s : String) : Bool :=
  !s.isEmpty && s.data.all isUserNameChar

/-- The username `validate` callback of `userBucketPrompt` (src/utils.ts
lines 214-227). -/
def usernameValidate (input : String) : VResult :=
  if input = "" then .err "Please enter a username"
  else if input.length < 3 then .err "Username must be at least 3 characters long"
  else if input.length > 63 then .err "Username must be less than 63 characters long"
  else if !matchesUserNameRe input then
    .err "Username must contain only letters, numbers, and the following characters: +=,.@_-"
  else .ok

/-- The policy-name `validate` callback of `customPolicyNamePrompt`
(src/utils.ts lines 274-287). -/
def policyNameValidate (input : String) : VResult :=
  if input = "" then .err "Please enter a policy name"
  else if input.length < 3 then .err "Policy name must be at least 3 characters long"
  else if input.length > 63 then .err "Policy name must be less than 63 characters long"
  else if !matchesUserNameRe input then
    .err "Policy name must contain only letters, numbers, and the following characters: +=,.@_-"
  else .ok

/-- A character matched by the unflagged JavaScript regex metacharacter
`.`: anything but a line terminator. -/
def isRegexDotChar (c : Char) : Bool :=
  !(c == '\n' || c == '\r' || c == Char.ofNat 0x2028 || c == Char.ofNat 0x2029)

/-- Match of `.+$` against the remainder of the input after the scheme. -/
def dotPlus (l : List Char) : Bool :=
  !l.isEmpty && l.all isRegexDotChar

/-- Match of the tail of `^https?://.+$` after the initial "http": either
"s://" or "://", followed by at least one non-line-terminator. -/
def afterHttpMatch : List Char → Bool
  | 's' :: ':' :: '/' :: '/' :: rest => dotPlus rest
  | ':' :: '/' :: '/' :: rest => dotPlus rest
  | _ => false

/-- Hand-compiled match of the anchored regular expression
`^https?://.+$` (src/utils.ts line 238). -/
def matchesAppUrlRe (s : String) : Bool :=
  match s.data with
  | 'h' :: 't' :: 't' :: 'p' :: rest => afterHttpMatch rest
  | _ => false

/-- The app-URL `validate` callback of `userBucketPrompt` (src/utils.ts
lines 234-242). -/
def appUrlValidate (input : String) : VResult :=
  if input = "" then .err "Please enter an app URL"
  else if !matchesAppUrlRe input then .err "App URL must be a valid URL"
  else .ok

/-- The `default` value of the app-URL question (src/utils.ts line 243). -/
def appUrlDefault : String := "http://localhost:3000"

/-- Default resolution of the prompt library: a blank entry resolves to
the question's default value, any other entry stands. -/
def resolveWithDefault (input defaultValue : String) : String :=
  if input = "" then defaultValue else input

/-- The `PublicAccessBlockConfiguration` payload of the
`putPublicAccessBlock` call in `attachPublicBucketPolicy` (src/utils.ts
lines 132-140). -/
structure PublicAccessBlockConfiguration where
  BlockPublicAcls : Bool
  IgnorePublicAcls : Bool
  RestrictPublicBuckets : Bool
  BlockPublicPolicy : Bool

/-- One CORS rule, as passed to `attachBucketCors` (src/utils.ts lines
103-121, src/index.ts lines 60-68). -/
structure CorsRule where
  AllowedHeaders : List String
  AllowedMethods : List String
  AllowedOrigins : List String
  ExposeHeaders : List String
  MaxAgeSeconds : Nat

/-- One AWS control-plane call, carrying the request payload that the
source builds for it.  Policy documents are carried as structured `Json`
values (the source serializes them with `JSON.stringify` before sending). -/
inductive AwsCall where
  | createBucket (bucket : String) : AwsCall
  | putBucketCors (bucket : String) (rules : List CorsRule) : AwsCall
  | putPublicAccessBlock (bucket : String)
      (config : PublicAccessBlockConfiguration) : AwsCall
  | putBucketPolicy (bucket : String) (policy : Json) : AwsCall
  | createUser (userName : String) : AwsCall
  | createPolicy (policyName : String) (policyDocument : Json) : AwsCall
  | attachUserPolicy (userName : String) (policyArn : String) : AwsCall
  | createAccessKey (userName : String) : AwsCall
  | putObject (bucket : String) (key : String) : AwsCall

/-- Content written to a local file: either a serialized JSON document
(`JSON.stringify`'s formatting is abstracted away) or plain text. -/
inductive FileContent where
  | json (doc : Json) : FileContent
  | text (s : String) : FileContent

/-- One observable effect of the orchestration in src/index.ts: an AWS
call, a local file write or read, or a thrown fatal error.  Console
output and prompting are elided. -/
inductive Effect where
  | aws (call : AwsCall) : Effect
  | writeFile (path : String) (content : FileContent) : Effect
  | readFile (path : String) : Effect
  | throwError (msg : String) : Effect

/-- The environment variables the tool reads (src/utils.ts uses
`Bun.env.AWS_ACCOUNT_ID`, src/index.ts uses
`process.env.AWS_ACCOUNT_ID`).  The region and credential variables only
configure the SDK client and do not appear in any claim. -/
structure Env where
  AWS_ACCOUNT_ID : String

/-- `createUser` (src/utils.ts lines 29-38): one `createUser` call. -/
def createUser (username : String) (region : String) : List AwsCall :=
  [AwsCall.createUser username]

/-- `createPolicy` (src/utils.ts lines 40-56): one `createPolicy` call. -/
def createPolicy (policyName : String) (policyDocument : Json)
    (region : String) : List AwsCall :=
  [AwsCall.createPolicy policyName policyDocument]

/-- `createAccessKey` (src/utils.ts lines 58-71): one `createAccessKey`
call; the produced key pair is returned to the caller. -/
def createAccessKey (username : String) (region : String) : List AwsCall :=
  [AwsCall.createAccessKey username]

/-- `attachUserPolicy` (src/utils.ts lines 73-86): one `attachUserPolicy`
call. -/
def attachUserPolicy (username : String) (policyArn : String)
    (region : String) : List AwsCall :=
  [AwsCall.attachUserPolicy username policyArn]

/-- `createS3Bucket` (src/utils.ts lines 88-101): one `createBucket`
call. -/
def createS3Bucket (bucketName : String) (region : String) : List AwsCall :=
  [AwsCall.createBucket bucketName]

/-- `attachBucketCors` (src/utils.ts lines 103-121): one `putBucketCors`
call with the given rules. -/
def attachBucketCors (bucketName : String) (corsConfiguration : List CorsRule)
    (region : String) : List AwsCall :=
  [AwsCall.putBucketCors bucketName corsConfiguration]

/-- The bucket policy set by `attachPublicBucketPolicy` (src/utils.ts
lines 145-156). -/
def publicReadPolicyDoc (bucketName : String) : Json :=
  Json.obj
    [("Version", Json.str "2012-10-17"),
     ("Statement", Json.arr
       [Json.obj
         [("Sid", Json.str "PublicReadGetObject"),
          ("Effect", Json.str "Allow"),
          ("Principal", Json.str "*"),
          ("Action", Json.arr [Json.str "s3:GetObject"]),
          ("Resource", Json.arr
            [Json.str ("arn:aws:s3:::" ++ bucketName ++ "/public/*")])]])]

/-- `attachPublicBucketPolicy` (src/utils.ts lines 123-159): first a
`putPublicAccessBlock` call turning all four flags off, then a
`putBucketPolicy` call with the public-read policy. -/
def attachPublicBucketPolicy (bucketName : String) (region : String) :
    List AwsCall :=
  [AwsCall.putPublicAccessBlock bucketName
    { BlockPublicAcls := false
      IgnorePublicAcls := false
      RestrictPublicBuckets := false
      BlockPublicPolicy := false },
   AwsCall.putBucketPolicy bucketName (publicReadPolicyDoc bucketName)]

/-- The policy document registered by `getDefaultUserPolicy` (src/utils.ts
lines 170-179). -/
def defaultUserPolicyDoc (bucketName : String) : Json :=
  Json.obj
    [("Version", Json.str "2012-10-17"),
     ("Statement", Json.arr
       [Json.obj
         [("Effect", Json.str "Allow"),
          ("Action", Json.arr [Json.str "s3:PutObject", Json.str "s3:GetObject"]),
          ("Resource", Json.arr
            [Json.str ("arn:aws:s3:::" ++ bucketName ++ "/*")])]])]

/-- `getDefaultUserPolicy` (src/utils.ts lines 161-186): registers the
default policy named `default-<bucketName>-policy` through `createPolicy`
and returns the ARN it builds from the environment's `AWS_ACCOUNT_ID`. -/
def getDefaultUserPolicy (env : Env) (bucketName : String) (region : String) :
    List AwsCall × String :=
  (createPolicy ("default-" ++ bucketName ++ "-policy")
     (defaultUserPolicyDoc bucketName) region,
   "arn:aws:iam::" ++ env.AWS_ACCOUNT_ID ++ ":policy/default-" ++ bucketName
     ++ "-policy")

/-- `createBucketFolders` (src/utils.ts lines 332-353): two `putObject`
calls creating the `public/` and `private/` placeholder objects.  No code
in src/index.ts ever calls this function. -/
def createBucketFolders (bucketName : String) (region : String) :
    List AwsCall :=
  [AwsCall.putObject bucketName "public/", AwsCall.putObject bucketName "private/"]

/-- The record returned by `userBucketPrompt` (src/types.ts lines 3-10).
The optional `region` is carried as the string the prompt produced. -/
structure UserBucketPrompt where
  bucketName : String
  username : String
  allowPublicRead : Bool
  region : String
  defaultPolicy : Bool
  appUrl : String

/-- The skeleton policy document written to `custom-bucket-policy.json`
(src/index.ts lines 31-44). -/
def skeletonPolicy (bucketName : String) : Json :=
  Json.obj
    [("Version", Json.str "2012-10-17"),
     ("Statement", Json.arr
       [Json.obj
         [("Effect", Json.str "Allow"),
          ("Action", Json.arr []),
          ("Resource", Json.arr
            [Json.str ("arn:aws:s3:::" ++ bucketName ++ "/*")])]])]

/-- The single CORS rule the orchestration attaches (src/index.ts lines
60-68). -/
def mainCorsRule (appUrl : String) : CorsRule :=
  { AllowedHeaders := ["*"]
    AllowedMethods := ["GET", "PUT", "DELETE"]
    AllowedOrigins := [appUrl]
    ExposeHeaders := []
    MaxAgeSeconds := 3000 }

/-- The dotenv content built at src/index.ts line 130. -/
def envFileContent (AccessKeyId SecretAccessKey bucketName region : String) :
    String :=
  "AWS_ACCESS_KEY_ID=" ++ AccessKeyId ++ "\n" ++
  "AWS_SECRET_ACCESS_KEY=" ++ SecretAccessKey ++ "\n" ++
  "AWS_BUCKET_NAME=" ++ bucketName ++ "\n" ++
  "AWS_REGION=" ++ region

/-- The custom-policy branch of the orchestration (src/index.ts lines
100-116).  `policyName` is the `let`-bound variable of line 25; the
JavaScript guard `if (!policyName) throw ...` fires when the variable is
still `undefined` or holds the empty string, both falsy.  Otherwise the
branch re-reads `custom-bucket-policy.json` and creates and attaches the
custom policy, building its ARN from the environment's account ID. -/
def customPolicyStep (policyName : Option String) (username : String)
    (editedPolicy : Json) (region : String) (env : Env) : List Effect :=
  match policyName with
  | none => [Effect.throwError "Policy name not found"]
  | some name =>
    if name = "" then [Effect.throwError "Policy name not found"]
    else
      Effect.readFile "custom-bucket-policy.json" ::
      (createPolicy name editedPolicy region).map Effect.aws
      ++ (attachUserPolicy username
           ("arn:aws:iam::" ++ env.AWS_ACCOUNT_ID ++ ":policy/" ++ name)
           region).map Effect.aws

/-- The orchestration of src/index.ts lines 15-134, as the sequence of
effects it performs.  Parameters: the operator's prompt answers, the
custom-policy name answer (used only when `defaultPolicy` is false), the
parsed content of `custom-bucket-policy.json` at the time it is re-read,
the access key the provisioner returned, and the environment. -/
def mainFlow (answers : UserBucketPrompt) (policyNameAnswer : String)
    (editedPolicy : Json) (accessKeyId secretAccessKey : String) (env : Env) :
    List Effect :=
  (if answers.defaultPolicy then []
   else [Effect.writeFile "custom-bucket-policy.json"
           (FileContent.json (skeletonPolicy answers.bucketName))])
  ++ (createS3Bucket answers.bucketName answers.region).map Effect.aws
  ++ (attachBucketCors answers.bucketName [mainCorsRule answers.appUrl]
        answers.region).map Effect.aws
  ++ (if answers.allowPublicRead then
        (attachPublicBucketPolicy answers.bucketName answers.region).map
          Effect.aws
      else [])
  ++ (createUser answers.username answers.region).map Effect.aws
  ++ (if answers.defaultPolicy then
        (getDefaultUserPolicy env answers.bucketName answers.region).1.map
          Effect.aws
        ++ (attachUserPolicy answers.username
             (getDefaultUserPolicy env answers.bucketName answers.region).2
             answers.region).map Effect.aws
      else
        customPolicyStep (some policyNameAnswer) answers.username editedPolicy
          answers.region env)
  ++ (createAccessKey answers.username answers.region).map Effect.aws
  ++ [Effect.writeFile (".env." ++ answers.bucketName)
        (FileContent.text (envFileContent accessKeyId secretAccessKey
          answers.bucketName answers.region))]

/-- A flat model of the local directory: the files `fs.writeFileSync` and
`fs.readFileSync` touch, keyed by path. -/
def FileSystem : Type := List (String × FileContent)

/-- `fs.writeFileSync`: creates the file or silently replaces an existing
file of the same path. -/
def writeFileSync (fs : FileSystem) (path : String) (content : FileContent) :
    FileSystem :=
  (path, content) :: List.filter (fun e => !(e.1 == path)) fs

/-- Reading a file of the modelled directory. -/
def readFileOpt (fs : FileSystem) (path : String) : Option FileContent :=
  (List.find? (fun e => e.1 == path) fs).map Prod.snd

theorem isStr_eq_true_iff (j : Json) : isStr j = true ↔ ∃ s, j = Json.str s := by
  cases j <;> simp [isStr]

theorem nonEmptyStringArray_eq_true_iff (j : Json) :
    nonEmptyStringArray j = true ↔
      ∃ xs, j = Json.arr xs ∧ xs ≠ [] ∧ ∀ x ∈ xs, ∃ s, x = Json.str s := by
  cases j <;> simp [nonEmptyStringArray, List.all_eq_true, isStr_eq_true_iff,
    List.isEmpty_iff]

theorem requiredField_eq_true_iff (check : Json → Bool) (o : Option Json) :
    requiredField check o = true ↔ ∃ j, o = some j ∧ check j = true := by
  cases o <;> simp [requiredField]

theorem versionLiteralOk_eq_true_iff (j : Json) :
    versionLiteralOk j = true ↔ j = Json.str "2012-10-17" := by
  cases j <;> simp [versionLiteralOk]

theorem statementAccepts_eq_true_iff (j : Json) :
    statementAccepts j = true ↔ StatementWellFormed j := by
  cases j <;> simp [statementAccepts, StatementWellFormed,
    requiredField_eq_true_iff, isStr_eq_true_iff, nonEmptyStringArray_eq_true_iff]
  case obj fields => aesop

theorem statementsArrayOk_eq_true_iff (j : Json) :
    statementsArrayOk j = true ↔
      ∃ stmts, j = Json.arr stmts ∧ ∀ s ∈ stmts, StatementWellFormed s := by
  cases j <;> simp [statementsArrayOk, List.all_eq_true, statementAccepts_eq_true_iff]

theorem policySchemaAccepts_eq_true_iff (j : Json) :
    policySchemaAccepts j = true ↔ PolicyDocAccepted j := by
  cases j <;> simp [policySchemaAccepts, PolicyDocAccepted,
    requiredField_eq_true_iff, versionLiteralOk_eq_true_iff,
    statementsArrayOk_eq_true_iff]
  case obj fields => aesop

theorem bucketNameValidate_ok_iff (s : String) :
    bucketNameValidate s = VResult.ok ↔
      3 ≤ s.length ∧ s.length ≤ 63 ∧ matchesBucketNameRe s = true := by
  unfold bucketNameValidate
  split_ifs with h1 h2 h3 h4 <;> simp_all

theorem usernameValidate_ok_iff (s : String) :
    usernameValidate s = VResult.ok ↔
      3 ≤ s.length ∧ s.length ≤ 63 ∧ matchesUserNameRe s = true := by
  unfold usernameValidate
  split_ifs with h1 h2 h3 h4 <;> simp_all

theorem policyNameValidate_ok_iff (s : String) :
    policyNameValidate s = VResult.ok ↔
      3 ≤ s.length ∧ s.length ≤ 63 ∧ matchesUserNameRe s = true := by
  unfold policyNameValidate
  split_ifs with h1 h2 h3 h4 <;> simp_all

theorem appUrlValidate_ok_iff (s : String) :
    appUrlValidate s = VResult.ok ↔ matchesAppUrlRe s = true := by
  unfold appUrlValidate
  split_ifs with h1 h2 <;> simp_all
  subst h1
  decide

/-- C1 counterexample: `policySchema` accepts the parsed document with
`Version` "2012-10-17", an empty `Statement` array and an extra key
`Extra`, even though the claim requires rejection (non-empty `Statement`,
exactly the two keys): the source puts no `.min(1)` on `Statement`, and
zod's default object mode ignores unknown keys. -/
theorem policySchema_accepts_empty_statement_and_extra_key :
    policySchemaAccepts
      (Json.obj
        [("Version", Json.str "2012-10-17"),
         ("Statement", Json.arr []),
         ("Extra", Json.num 0)]) = true := by
  decide

/-- C1 (amended): custom policy-document validation accepts a parsed JSON
value if and only if it is an object (any additional keys are ignored)
with `Version` equal to the literal string "2012-10-17" and `Statement`
an array — possibly empty — of objects, each having a string `Effect`, a
non-empty array of strings `Action` and a non-empty array of strings
`Resource`; a document with one well-formed statement with non-empty
`Action` and `Resource` arrays is accepted, and one whose single
statement has an empty `Action` array is rejected. -/
theorem policy_document_validation_characterization :
    (∀ j, policySchemaAccepts j = true ↔ PolicyDocAccepted j) ∧
    policySchemaAccepts
      (Json.obj
        [("Version", Json.str "2012-10-17"),
         ("Statement", Json.arr
           [Json.obj
             [("Effect", Json.str "Allow"),
              ("Action", Json.arr [Json.str "s3:GetObject"]),
              ("Resource", Json.arr
                [Json.str "arn:aws:s3:::my-bucket/*"])]])]) = true ∧
    policySchemaAccepts
      (Json.obj
        [("Version", Json.str "2012-10-17"),
         ("Statement", Json.arr
           [Json.obj
             [("Effect", Json.str "Allow"),
              ("Action", Json.arr []),
              ("Resource", Json.arr
                [Json.str "arn:aws:s3:::my-bucket/*"])]])]) = false :=
  ⟨policySchemaAccepts_eq_true_iff, by decide, by decide⟩

/-- C2: for every bucket name, `attachPublicBucketPolicy` first disables
all four S3 public-access-block flags and then sets a bucket policy whose
single statement has Effect "Allow", Principal "*", Action exactly
["s3:GetObject"] and Resource exactly ["arn:aws:s3:::<bucketName>/public/*"];
and every run of the orchestration with allowPublicRead = true performs
exactly these two calls, in this order, as a block of its trace. -/
theorem attachPublicBucketPolicy_characterization
    (bucketName region : String) (un url pn ak sk : String) (dp : Bool)
    (ep : Json) (env : Env) :
    (∃ fields stmt,
      attachPublicBucketPolicy bucketName region =
        [AwsCall.putPublicAccessBlock bucketName
          { BlockPublicAcls := false
            IgnorePublicAcls := false
            RestrictPublicBuckets := false
            BlockPublicPolicy := false },
         AwsCall.putBucketPolicy bucketName (Json.obj fields)] ∧
      jlookup fields "Version" = some (Json.str "2012-10-17") ∧
      jlookup fields "Statement" = some (Json.arr [Json.obj stmt]) ∧
      jlookup stmt "Effect" = some (Json.str "Allow") ∧
      jlookup stmt "Principal" = some (Json.str "*") ∧
      jlookup stmt "Action" = some (Json.arr [Json.str "s3:GetObject"]) ∧
      jlookup stmt "Resource" =
        some (Json.arr
          [Json.str ("arn:aws:s3:::" ++ bucketName ++ "/public/*")])) ∧
    (∃ pre post,
      mainFlow ⟨bucketName, un, true, region, dp, url⟩ pn ep ak sk env =
        pre ++ (attachPublicBucketPolicy bucketName region).map Effect.aws
          ++ post) := by
  constructor
  · exact ⟨_, _, rfl, rfl, rfl, rfl, rfl, rfl, rfl⟩
  · cases dp
    · exact ⟨(if (false : Bool) then []
          else [Effect.writeFile "custom-bucket-policy.json"
            (FileContent.json (skeletonPolicy bucketName))])
          ++ [Effect.aws (AwsCall.createBucket bucketName),
              Effect.aws (AwsCall.putBucketCors bucketName
                [mainCorsRule url])],
        [Effect.aws (AwsCall.createUser un)]
          ++ customPolicyStep (some pn) un ep region env
          ++ [Effect.aws (AwsCall.createAccessKey un),
              Effect.writeFile (".env." ++ bucketName)
                (FileContent.text (envFileContent ak sk bucketName region))],
        by simp [mainFlow, createS3Bucket, attachBucketCors, createUser,
             createAccessKey]⟩
    · exact ⟨[Effect.aws (AwsCall.createBucket bucketName),
              Effect.aws (AwsCall.putBucketCors bucketName
                [mainCorsRule url])],
        [Effect.aws (AwsCall.createUser un)]
          ++ ((getDefaultUserPolicy env bucketName region).1.map Effect.aws
            ++ (attachUserPolicy un
                 (getDefaultUserPolicy env bucketName region).2
                 region).map Effect.aws)
          ++ [Effect.aws (AwsCall.createAccessKey un),
              Effect.writeFile (".env." ++ bucketName)
                (FileContent.text (envFileContent ak sk bucketName region))],
        by simp [mainFlow, createS3Bucket, attachBucketCors, createUser,
             createAccessKey]⟩

/-- C3: for every bucket name, `getDefaultUserPolicy` registers (through
a single `createPolicy` call, with no other API call) an IAM managed
policy named `default-<bucketName>-policy` whose single statement has
Action exactly ["s3:PutObject","s3:GetObject"] and Resource exactly
["arn:aws:s3:::<bucketName>/*"], and returns the ARN
`arn:aws:iam::<accountId>:policy/default-<bucketName>-policy` built from
the environment's AWS_ACCOUNT_ID; and every run of the orchestration with
defaultPolicy = true creates this policy and attaches that ARN to the
user. -/
theorem getDefaultUserPolicy_characterization
    (bucketName region : String) (env : Env) (un url pn ak sk : String)
    (apr : Bool) (ep : Json) :
    ∃ doc arn,
      getDefaultUserPolicy env bucketName region =
        ([AwsCall.createPolicy ("default-" ++ bucketName ++ "-policy") doc],
         arn) ∧
      arn = "arn:aws:iam::" ++ env.AWS_ACCOUNT_ID ++ ":policy/default-"
        ++ bucketName ++ "-policy" ∧
      (∃ fields stmt, doc = Json.obj fields ∧
        jlookup fields "Version" = some (Json.str "2012-10-17") ∧
        jlookup fields "Statement" = some (Json.arr [Json.obj stmt]) ∧
        jlookup stmt "Action" =
          some (Json.arr [Json.str "s3:PutObject", Json.str "s3:GetObject"]) ∧
        jlookup stmt "Resource" =
          some (Json.arr [Json.str ("arn:aws:s3:::" ++ bucketName ++ "/*")])) ∧
      (∃ pre post,
        mainFlow ⟨bucketName, un, apr, region, true, url⟩ pn ep ak sk env =
          pre
          ++ [Effect.aws
                (AwsCall.createPolicy ("default-" ++ bucketName ++ "-policy")
                  doc),
              Effect.aws (AwsCall.attachUserPolicy un arn)]
          ++ post) := by
  refine ⟨defaultUserPolicyDoc bucketName,
    "arn:aws:iam::" ++ env.AWS_ACCOUNT_ID ++ ":policy/default-" ++ bucketName
      ++ "-policy", rfl, rfl, ⟨_, _, rfl, rfl, rfl, rfl, rfl⟩, ?_⟩
  cases apr
  · exact ⟨[Effect.aws (AwsCall.createBucket bucketName),
            Effect.aws (AwsCall.putBucketCors bucketName [mainCorsRule url]),
            Effect.aws (AwsCall.createUser un)],
      [Effect.aws (AwsCall.createAccessKey un),
       Effect.writeFile (".env." ++ bucketName)
         (FileContent.text (envFileContent ak sk bucketName region))],
      by simp [mainFlow, createS3Bucket, attachBucketCors, createUser,
        createAccessKey, getDefaultUserPolicy, createPolicy, attachUserPolicy]⟩
  · exact ⟨[Effect.aws (AwsCall.createBucket bucketName),
            Effect.aws (AwsCall.putBucketCors bucketName [mainCorsRule url])]
        ++ (attachPublicBucketPolicy bucketName region).map Effect.aws
        ++ [Effect.aws (AwsCall.createUser un)],
      [Effect.aws (AwsCall.createAccessKey un),
       Effect.writeFile (".env." ++ bucketName)
         (FileContent.text (envFileContent ak sk bucketName region))],
      by simp [mainFlow, createS3Bucket, attachBucketCors, createUser,
        createAccessKey, getDefaultUserPolicy, createPolicy, attachUserPolicy]⟩

/-- C4: the bucket-name validator accepts exactly the strings of length
between 3 and 63 (inclusive) matching `^[a-z0-9.-]+$`; "ab" is rejected,
"My-Bucket" is rejected, "my-bucket.1" is accepted. -/
theorem bucketName_validator_characterization :
    (∀ s, bucketNameValidate s = VResult.ok ↔
      3 ≤ s.length ∧ s.length ≤ 63 ∧ matchesBucketNameRe s = true) ∧
    bucketNameValidate "ab" ≠ VResult.ok ∧
    bucketNameValidate "My-Bucket" ≠ VResult.ok ∧
    bucketNameValidate "my-bucket.1" = VResult.ok :=
  ⟨bucketNameValidate_ok_iff, by decide, by decide, by decide⟩

/-- C5: the username validator and the custom-policy-name validator each
accept exactly the strings of length between 3 and 63 (inclusive)
matching `^[a-zA-Z0-9+=,.@_-]+$`, so they accept the same set of
strings; "jo" and "jo#doe" are rejected, "jo.doe_1" is accepted by
both. -/
theorem username_policyName_validator_characterization :
    (∀ s, usernameValidate s = VResult.ok ↔
      3 ≤ s.length ∧ s.length ≤ 63 ∧ matchesUserNameRe s = true) ∧
    (∀ s, policyNameValidate s = VResult.ok ↔
      3 ≤ s.length ∧ s.length ≤ 63 ∧ matchesUserNameRe s = true) ∧
    (∀ s, usernameValidate s = VResult.ok ↔ policyNameValidate s = VResult.ok) ∧
    usernameValidate "jo" ≠ VResult.ok ∧
    usernameValidate "jo#doe" ≠ VResult.ok ∧
    usernameValidate "jo.doe_1" = VResult.ok ∧
    policyNameValidate "jo" ≠ VResult.ok ∧
    policyNameValidate "jo#doe" ≠ VResult.ok ∧
    policyNameValidate "jo.doe_1" = VResult.ok :=
  ⟨usernameValidate_ok_iff, policyNameValidate_ok_iff,
   fun s => (usernameValidate_ok_iff s).trans (policyNameValidate_ok_iff s).symm,
   by decide, by decide, by decide, by decide, by decide, by decide⟩

/-- C6: the app-URL validator accepts exactly the strings matching
`^https?://.+$`, and a blank entry resolves to the question's default
value `http://localhost:3000` (which itself passes validation). -/
theorem appUrl_validator_characterization :
    (∀ s, appUrlValidate s = VResult.ok ↔ matchesAppUrlRe s = true) ∧
    resolveWithDefault "" appUrlDefault = "http://localhost:3000" ∧
    appUrlValidate "http://localhost:3000" = VResult.ok :=
  ⟨appUrlValidate_ok_iff, by decide, by decide⟩

/-- C7: every run of the orchestration ends by writing the file
`.env.<bucketName>` whose content is exactly the four `key=value` lines
`AWS_ACCESS_KEY_ID`, `AWS_SECRET_ACCESS_KEY`, `AWS_BUCKET_NAME`,
`AWS_REGION` in this order, joined by single newlines; and
`fs.writeFileSync` replaces any existing file of that path without
warning. -/
theorem credential_writer_characterization (answers : UserBucketPrompt)
    (pn : String) (ep : Json) (ak sk : String) (env : Env)
    (fs : FileSystem) (c : FileContent) :
    (mainFlow answers pn ep ak sk env).getLast? =
      some (Effect.writeFile (".env." ++ answers.bucketName)
        (FileContent.text
          (envFileContent ak sk answers.bucketName answers.region))) ∧
    envFileContent ak sk answers.bucketName answers.region =
      String.intercalate "\n"
        ["AWS_ACCESS_KEY_ID=" ++ ak,
         "AWS_SECRET_ACCESS_KEY=" ++ sk,
         "AWS_BUCKET_NAME=" ++ answers.bucketName,
         "AWS_REGION=" ++ answers.region] ∧
    readFileOpt (writeFileSync fs (".env." ++ answers.bucketName) c)
      (".env." ++ answers.bucketName) = some c := by
  refine ⟨?_, ?_, ?_⟩
  · unfold mainFlow
    exact List.getLast?_concat _
  · apply String.ext
    simp only [envFileContent, String.intercalate, String.intercalate.go,
      String.data_append, List.append_assoc]
  · simp [readFileOpt, writeFileSync, List.find?]

/-- C8: whenever a custom (non-default) policy is chosen, the very first
effect of the orchestration writes to the fixed path
`custom-bucket-policy.json` a skeleton document with Version
"2012-10-17" and exactly one statement whose Effect is "Allow", whose
Action is the empty array and whose Resource is exactly
["arn:aws:s3:::<bucketName>/*"]. -/
theorem custom_policy_skeleton_characterization
    (bn un region url pn ak sk : String) (apr : Bool) (ep : Json)
    (env : Env) :
    (mainFlow ⟨bn, un, apr, region, false, url⟩ pn ep ak sk env).head? =
      some (Effect.writeFile "custom-bucket-policy.json"
        (FileContent.json (skeletonPolicy bn))) ∧
    (∃ fields stmt, skeletonPolicy bn = Json.obj fields ∧
      jlookup fields "Version" = some (Json.str "2012-10-17") ∧
      jlookup fields "Statement" = some (Json.arr [Json.obj stmt]) ∧
      jlookup stmt "Effect" = some (Json.str "Allow") ∧
      jlookup stmt "Action" = some (Json.arr []) ∧
      jlookup stmt "Resource" =
        some (Json.arr [Json.str ("arn:aws:s3:::" ++ bn ++ "/*")])) :=
  ⟨rfl, ⟨_, _, rfl, rfl, rfl, rfl, rfl, rfl⟩⟩

/-- C9: with a custom policy selected but no policy name captured, the
custom-policy branch raises only the fatal error "Policy name not found"
and performs no provisioning call at all; and since the orchestration's
custom branch always passes the prompted (validated, hence non-empty)
name, the error is unreachable in any run of the flow. -/
theorem missing_policy_name_guard (un region : String) (ep : Json)
    (env : Env) (call : AwsCall) (pn bn un2 url ak sk region2 : String)
    (apr : Bool) (hpn : policyNameValidate pn = VResult.ok) :
    customPolicyStep none un ep region env =
      [Effect.throwError "Policy name not found"] ∧
    Effect.aws call ∉ customPolicyStep none un ep region env ∧
    Effect.throwError "Policy name not found" ∉
      mainFlow ⟨bn, un2, apr, region2, false, url⟩ pn ep ak sk env := by
  have hne : pn ≠ "" := by
    intro h
    subst h
    have h3 := ((policyNameValidate_ok_iff "").mp hpn).1
    simp at h3
  refine ⟨rfl, by simp [customPolicyStep], ?_⟩
  cases apr <;>
    simp [mainFlow, createS3Bucket, attachBucketCors, createUser,
      createAccessKey, attachPublicBucketPolicy, customPolicyStep,
      createPolicy, attachUserPolicy, hne]

/-- C9 witness: the guard theorem applied at concrete inputs. -/
theorem missing_policy_name_guard_witness :
    policyNameValidate "custom-policy" = VResult.ok ∧
    (customPolicyStep none "deployer" (Json.obj []) "us-east-1"
        ⟨"123456789012"⟩ =
      [Effect.throwError "Policy name not found"] ∧
    Effect.aws (AwsCall.createUser "deployer") ∉
      customPolicyStep none "deployer" (Json.obj []) "us-east-1"
        ⟨"123456789012"⟩ ∧
    Effect.throwError "Policy name not found" ∉
      mainFlow ⟨"my-app-assets", "deployer", false, "us-east-1", false,
          "http://localhost:3000"⟩ "custom-policy" (Json.obj []) "AKIA"
        "SECRET" ⟨"123456789012"⟩) :=
  ⟨by decide,
   missing_policy_name_guard "deployer" "us-east-1" (Json.obj [])
     ⟨"123456789012"⟩ (AwsCall.createUser "deployer") "custom-policy"
     "my-app-assets" "deployer" "http://localhost:3000" "AKIA" "SECRET"
     "us-east-1" false (by decide)⟩

/-- C10: `createBucketFolders` is the only operation that would upload
the `public/` and `private/` placeholder objects, and no run of the
orchestration — whatever the answers, in particular whatever
allowPublicRead is — ever performs a `putObject` call, so the created
bucket is left with no folder objects. -/
theorem no_object_upload_in_flow (bn region : String)
    (answers : UserBucketPrompt) (pn : String) (ep : Json)
    (ak sk : String) (env : Env) (b k : String) :
    createBucketFolders bn region =
      [AwsCall.putObject bn "public/", AwsCall.putObject bn "private/"] ∧
    Effect.aws (AwsCall.putObject b k) ∉ mainFlow answers pn ep ak sk env := by
  refine ⟨rfl, ?_⟩
  obtain ⟨bn2, un, apr, region2, dp, url⟩ := answers
  cases apr <;> cases dp <;>
    by_cases hpn : pn = "" <;>
      simp [mainFlow, createS3Bucket, attachBucketCors, createUser,
        createAccessKey, attachPublicBucketPolicy, customPolicyStep,
        createPolicy, attachUserPolicy, getDefaultUserPolicy, hpn]
